import Mathlib

/-!
# Verification of `FiniteDifferenceTypes.h`

A shallow embedding of the configuration types of the PdeFiniteDifferenceKernels
repository (`src/FiniteDifferenceTypes.h`), together with theorems settling the
specification's claims about them.

Modelling conventions:
* A C++ `enum class` with underlying integer type is embedded as a structure
  wrapping an `Int` value; the enumerators become named constants.  This keeps
  enumerators with equal numeric values (such as `__BEGIN__ = 1` and
  `ExplicitEuler = 1`) equal, exactly as in C++, and keeps every representable
  integer value expressible.
* `double` fields carry no floating-point arithmetic anywhere in the header
  (they are only stored and compared against literals), so they are embedded
  as `ℚ`.
* `MemoryBuffer` (from the excluded host-memory collaborator) is, per the
  spec's interface section, a fixed-length sequence of reals; it is embedded
  as `List ℚ`.
* The C++ constructors in the header have no failure path (no `throw`, no
  `assert`): each is a total function that stores its arguments.  The defaulted
  copy-assignment operator is embedded as a state-passing function returning
  the post-assignment state of the left-hand object.
-/

/-- C++ `enum class SolverType` (underlying integer values). -/
structure SolverType where
  val : Int
deriving DecidableEq, Repr

namespace SolverType

def Null : SolverType := ⟨0⟩

def ExplicitEuler : SolverType := ⟨1⟩

def ImplicitEuler : SolverType := ⟨2⟩

def CrankNicolson : SolverType := ⟨3⟩

def RungeKuttaRalston : SolverType := ⟨4⟩

def RungeKutta3 : SolverType := ⟨5⟩

def RungeKutta4 : SolverType := ⟨6⟩

def RungeKuttaThreeEight : SolverType := ⟨7⟩

def RungeKuttaGaussLegendre4 : SolverType := ⟨8⟩

def RichardsonExtrapolation2 : SolverType := ⟨9⟩

def RichardsonExtrapolation3 : SolverType := ⟨10⟩

def AdamsBashforth2 : SolverType := ⟨11⟩

/-- The source spells this enumerator `AdamsMouldon2` (the Adams-Moulton
2-step method). -/
def AdamsMouldon2 : SolverType := ⟨12⟩

def __BEGIN__ : SolverType := ⟨1⟩

def __END__ : SolverType := ⟨13⟩

end SolverType

/-- The twelve valid (dispatchable) solver families, in source order. -/
def validSolvers : List SolverType :=
  [SolverType.ExplicitEuler, SolverType.ImplicitEuler, SolverType.CrankNicolson,
   SolverType.RungeKuttaRalston, SolverType.RungeKutta3, SolverType.RungeKutta4,
   SolverType.RungeKuttaThreeEight, SolverType.RungeKuttaGaussLegendre4,
   SolverType.RichardsonExtrapolation2, SolverType.RichardsonExtrapolation3,
   SolverType.AdamsBashforth2, SolverType.AdamsMouldon2]

/-- `getNumberOfSteps` from the source: a `switch` returning 2 for the two
multistep enumerators and 1 via the `default` branch for every other value. -/
def getNumberOfSteps (solverType : SolverType) : Nat :=
  if solverType = SolverType.AdamsBashforth2 ∨ solverType = SolverType.AdamsMouldon2 then 2
  else 1

/-- C++ `enum class SpaceDiscretizerType`. -/
structure SpaceDiscretizerType where
  val : Int
deriving DecidableEq, Repr

namespace SpaceDiscretizerType

def Null : SpaceDiscretizerType := ⟨0⟩

def Centered : SpaceDiscretizerType := ⟨1⟩

def Upwind : SpaceDiscretizerType := ⟨2⟩

def LaxWendroff : SpaceDiscretizerType := ⟨3⟩

end SpaceDiscretizerType

/-- C++ `enum class BoundaryConditionType`. -/
structure BoundaryConditionType where
  val : Int
deriving DecidableEq, Repr

namespace BoundaryConditionType

def Null : BoundaryConditionType := ⟨0⟩

def Dirichlet : BoundaryConditionType := ⟨1⟩

def Neumann : BoundaryConditionType := ⟨2⟩

def Periodic : BoundaryConditionType := ⟨3⟩

end BoundaryConditionType

/-- `struct BoundaryCondition`: a condition type and a scalar value.  Its
constructor stores the two arguments. -/
structure BoundaryCondition where
  type : BoundaryConditionType
  value : ℚ
deriving DecidableEq, Repr

/-- The C++ constructor called with no arguments: both parameters take their
default values `BoundaryConditionType::Neumann` and `0.0`. -/
def BoundaryCondition.mkDefault : BoundaryCondition :=
  ⟨BoundaryConditionType.Neumann, 0⟩

/-- `class BoundaryCondition1D`: a left and a right `BoundaryCondition`.  Its
constructor stores the two arguments; it performs no validation. -/
structure BoundaryCondition1D where
  left : BoundaryCondition
  right : BoundaryCondition
deriving DecidableEq, Repr

/-- The C++ `BoundaryCondition1D` constructor called with no arguments. -/
def BoundaryCondition1D.mkDefault : BoundaryCondition1D :=
  ⟨BoundaryCondition.mkDefault, BoundaryCondition.mkDefault⟩

/-- `class BoundaryCondition2D : public BoundaryCondition1D`: the derived
class' data consists of the base-class subobject `{left, right}` plus the two
added members `{down, up}`.  The constructor forwards `left`/`right` to the
base constructor and stores `down`/`up`; it performs no validation. -/
structure BoundaryCondition2D extends BoundaryCondition1D where
  down : BoundaryCondition
  up : BoundaryCondition
deriving DecidableEq, Repr

/-- `struct FiniteDifferenceInput1D`: the 1D problem-configuration bundle.
The constructor initializes each member from the matching argument and has an
empty body: it stores the arguments verbatim, with no validation. -/
structure FiniteDifferenceInput1D where
  dt : ℚ
  grid : List ℚ
  velocity : List ℚ
  diffusion : List ℚ
  solverType : SolverType
  spaceDiscretizerType : SpaceDiscretizerType
  boundaryConditions : BoundaryCondition1D
deriving DecidableEq, Repr

/-- The defaulted copy-assignment operator of `FiniteDifferenceInput1D`:
memberwise assignment, so the post-assignment state of the left-hand object is
the right-hand object's state. -/
def FiniteDifferenceInput1D.assign (_lhs rhs : FiniteDifferenceInput1D) :
    FiniteDifferenceInput1D :=
  { dt := rhs.dt, grid := rhs.grid, velocity := rhs.velocity,
    diffusion := rhs.diffusion, solverType := rhs.solverType,
    spaceDiscretizerType := rhs.spaceDiscretizerType,
    boundaryConditions := rhs.boundaryConditions }

/-- `struct FiniteDifferenceInput2D`: the 2D problem-configuration bundle.
As in 1D, the constructor stores the arguments verbatim with no validation. -/
structure FiniteDifferenceInput2D where
  dt : ℚ
  xGrid : List ℚ
  yGrid : List ℚ
  xVelocity : List ℚ
  yVelocity : List ℚ
  diffusion : List ℚ
  solverType : SolverType
  spaceDiscretizerType : SpaceDiscretizerType
  boundaryConditions : BoundaryCondition2D
deriving DecidableEq, Repr

/-- The defaulted copy-assignment operator of `FiniteDifferenceInput2D`. -/
def FiniteDifferenceInput2D.assign (_lhs rhs : FiniteDifferenceInput2D) :
    FiniteDifferenceInput2D :=
  { dt := rhs.dt, xGrid := rhs.xGrid, yGrid := rhs.yGrid,
    xVelocity := rhs.xVelocity, yVelocity := rhs.yVelocity,
    diffusion := rhs.diffusion, solverType := rhs.solverType,
    spaceDiscretizerType := rhs.spaceDiscretizerType,
    boundaryConditions := rhs.boundaryConditions }

/-! ## Spec-side validity predicates

These definitions follow the specification's words (not the source, which has
no validation code); they exist to be compared against the source-embedded
constructors. -/

/-- Follows the spec's words: the grid coordinates are strictly increasing. -/
def specStrictlyIncreasing : List ℚ → Bool
  | [] => true
  | [_] => true
  | x :: y :: rest => decide (x < y) && specStrictlyIncreasing (y :: rest)

/-- Follows the spec's words: periodic conditions must be set consistently on
both sides of the 1D axis. -/
def specConsistentPeriodic1D (bc : BoundaryCondition1D) : Bool :=
  decide ((bc.left.type = BoundaryConditionType.Periodic) ↔
          (bc.right.type = BoundaryConditionType.Periodic))

/-- Follows the spec's words: periodic conditions must be set consistently on
both sides of each axis (left+right, and down+up). -/
def specConsistentPeriodic2D (bc : BoundaryCondition2D) : Bool :=
  specConsistentPeriodic1D bc.toBoundaryCondition1D &&
  decide ((bc.down.type = BoundaryConditionType.Periodic) ↔
          (bc.up.type = BoundaryConditionType.Periodic))

/-- Follows the spec's words (data-model invariants of `FiniteDifferenceInput1D`
and the enumerated `InvalidConfiguration` reasons): grid, velocity and
diffusion share one length of at least 3; dt is positive; the grid is strictly
increasing; periodic pairing is consistent; solver and discretizer are not
Null. -/
def specValidInput1D (input : FiniteDifferenceInput1D) : Bool :=
  decide (input.grid.length = input.velocity.length) &&
  decide (input.grid.length = input.diffusion.length) &&
  decide (3 ≤ input.grid.length) &&
  decide (0 < input.dt) &&
  specStrictlyIncreasing input.grid &&
  specConsistentPeriodic1D input.boundaryConditions &&
  decide (input.solverType ≠ SolverType.Null) &&
  decide (input.spaceDiscretizerType ≠ SpaceDiscretizerType.Null)

/-- Follows the spec's words for `FiniteDifferenceInput2D`: each velocity
field is aligned with its axis grid; the diffusion field has length
xGrid length × yGrid length; dt is positive; both grids are strictly
increasing; periodic pairing is consistent on both axes; solver and
discretizer are not Null. -/
def specValidInput2D (input : FiniteDifferenceInput2D) : Bool :=
  decide (input.xGrid.length = input.xVelocity.length) &&
  decide (input.yGrid.length = input.yVelocity.length) &&
  decide (input.diffusion.length = input.xGrid.length * input.yGrid.length) &&
  decide (3 ≤ input.xGrid.length) &&
  decide (3 ≤ input.yGrid.length) &&
  decide (0 < input.dt) &&
  specStrictlyIncreasing input.xGrid &&
  specStrictlyIncreasing input.yGrid &&
  specConsistentPeriodic2D input.boundaryConditions &&
  decide (input.solverType ≠ SolverType.Null) &&
  decide (input.spaceDiscretizerType ≠ SpaceDiscretizerType.Null)

/-- Errors of the solver dispatch (spec §7). -/
inductive AdvanceError where
  | UnsupportedSolver
deriving DecidableEq, Repr

/-- Modelled from the spec: the `Advance` dispatch of §4.3 is not among the
sources (only `FiniteDifferenceTypes.h` is).  Per the spec it dispatches each
of the twelve valid solver families and fails with `UnsupportedSolver` for the
Null / sentinel (out-of-range) values; since in the source enumeration the
valid values are exactly the integers in `[__BEGIN__, __END__) = [1, 13)`,
dispatch succeeds exactly on that range. -/
def advanceDispatch (solverType : SolverType) : Except AdvanceError SolverType :=
  if 1 ≤ solverType.val ∧ solverType.val < 13 then Except.ok solverType
  else Except.error AdvanceError.UnsupportedSolver

/-! ## Claim theorems -/

/-- C1: `getNumberOfSteps` is a pure total function mapping every valid
solver to its step-order: 2 for `AdamsBashforth2` and the Adams-Moulton
enumerator (spelled `AdamsMouldon2` in the source), and 1 for every other
valid solver. -/
theorem getNumberOfSteps_step_order :
    getNumberOfSteps SolverType.AdamsBashforth2 = 2 ∧
    getNumberOfSteps SolverType.AdamsMouldon2 = 2 ∧
    ∀ s ∈ validSolvers, s ≠ SolverType.AdamsBashforth2 →
      s ≠ SolverType.AdamsMouldon2 → getNumberOfSteps s = 1 := by
  decide

/-- Witness for C1: instantiated at the concrete solver `ExplicitEuler`. -/
theorem getNumberOfSteps_step_order_witness :
    getNumberOfSteps SolverType.ExplicitEuler = 1 :=
  getNumberOfSteps_step_order.2.2 SolverType.ExplicitEuler (by decide)
    (by decide) (by decide)

/-- C2 counterexample: a concrete argument combination violating every
enumerated invariant (negative `dt`, mismatched lengths, non-increasing grid
of length < 3, asymmetric periodic pairing, Null solver and discretizer) is
nevertheless accepted by the `FiniteDifferenceInput1D` constructor, which
simply stores the invalid values: construction succeeds. -/
theorem input1D_construction_no_validation_cex :
    specValidInput1D
      (FiniteDifferenceInput1D.mk (-1) [1, 0] [0] [0, 0, 0] SolverType.Null
        SpaceDiscretizerType.Null
        (BoundaryCondition1D.mk ⟨BoundaryConditionType.Periodic, 0⟩
          ⟨BoundaryConditionType.Neumann, 0⟩)) = false ∧
    (FiniteDifferenceInput1D.mk (-1) [1, 0] [0] [0, 0, 0] SolverType.Null
        SpaceDiscretizerType.Null
        (BoundaryCondition1D.mk ⟨BoundaryConditionType.Periodic, 0⟩
          ⟨BoundaryConditionType.Neumann, 0⟩)).dt = -1 ∧
    (FiniteDifferenceInput1D.mk (-1) [1, 0] [0] [0, 0, 0] SolverType.Null
        SpaceDiscretizerType.Null
        (BoundaryCondition1D.mk ⟨BoundaryConditionType.Periodic, 0⟩
          ⟨BoundaryConditionType.Neumann, 0⟩)).solverType = SolverType.Null := by
  decide

/-- C2 amended: the `FiniteDifferenceInput1D` and `FiniteDifferenceInput2D`
constructors perform no validation at all: for every argument combination,
valid or invalid, construction succeeds and stores the arguments verbatim;
every check is deferred past construction. -/
theorem input_construction_stores_arguments
    (dt : ℚ) (grid velocity diffusion : List ℚ) (yGrid yVelocity diff2 : List ℚ)
    (s : SolverType) (d : SpaceDiscretizerType)
    (bc : BoundaryCondition1D) (bc2 : BoundaryCondition2D) :
    (FiniteDifferenceInput1D.mk dt grid velocity diffusion s d bc).dt = dt ∧
    (FiniteDifferenceInput1D.mk dt grid velocity diffusion s d bc).grid = grid ∧
    (FiniteDifferenceInput1D.mk dt grid velocity diffusion s d bc).velocity = velocity ∧
    (FiniteDifferenceInput1D.mk dt grid velocity diffusion s d bc).diffusion = diffusion ∧
    (FiniteDifferenceInput1D.mk dt grid velocity diffusion s d bc).solverType = s ∧
    (FiniteDifferenceInput1D.mk dt grid velocity diffusion s d bc).spaceDiscretizerType = d ∧
    (FiniteDifferenceInput1D.mk dt grid velocity diffusion s d bc).boundaryConditions = bc ∧
    (FiniteDifferenceInput2D.mk dt grid yGrid velocity yVelocity diff2 s d bc2).dt = dt ∧
    (FiniteDifferenceInput2D.mk dt grid yGrid velocity yVelocity diff2 s d bc2).xGrid = grid ∧
    (FiniteDifferenceInput2D.mk dt grid yGrid velocity yVelocity diff2 s d bc2).yGrid = yGrid ∧
    (FiniteDifferenceInput2D.mk dt grid yGrid velocity yVelocity diff2 s d bc2).xVelocity = velocity ∧
    (FiniteDifferenceInput2D.mk dt grid yGrid velocity yVelocity diff2 s d bc2).yVelocity = yVelocity ∧
    (FiniteDifferenceInput2D.mk dt grid yGrid velocity yVelocity diff2 s d bc2).diffusion = diff2 ∧
    (FiniteDifferenceInput2D.mk dt grid yGrid velocity yVelocity diff2 s d bc2).solverType = s ∧
    (FiniteDifferenceInput2D.mk dt grid yGrid velocity yVelocity diff2 s d bc2).spaceDiscretizerType = d ∧
    (FiniteDifferenceInput2D.mk dt grid yGrid velocity yVelocity diff2 s d bc2).boundaryConditions = bc2 :=
  ⟨rfl, rfl, rfl, rfl, rfl, rfl, rfl, rfl, rfl, rfl, rfl, rfl, rfl, rfl, rfl, rfl⟩

/-- C3 counterexample: a `BoundaryCondition1D` with `Periodic` on the left and
`Neumann` on the right — exactly one side of the axis periodic — is accepted by
the constructor, which stores the asymmetric pair; likewise in 2D for the
down/up axis.  No rejection happens at construction time. -/
theorem boundary_periodic_pairing_not_validated_cex :
    specConsistentPeriodic1D
      (BoundaryCondition1D.mk ⟨BoundaryConditionType.Periodic, 0⟩
        ⟨BoundaryConditionType.Neumann, 0⟩) = false ∧
    (BoundaryCondition1D.mk ⟨BoundaryConditionType.Periodic, 0⟩
        ⟨BoundaryConditionType.Neumann, 0⟩).left.type = BoundaryConditionType.Periodic ∧
    (BoundaryCondition1D.mk ⟨BoundaryConditionType.Periodic, 0⟩
        ⟨BoundaryConditionType.Neumann, 0⟩).right.type = BoundaryConditionType.Neumann ∧
    specConsistentPeriodic2D
      (BoundaryCondition2D.mk BoundaryCondition1D.mkDefault
        ⟨BoundaryConditionType.Periodic, 0⟩ ⟨BoundaryConditionType.Dirichlet, 0⟩) = false ∧
    (BoundaryCondition2D.mk BoundaryCondition1D.mkDefault
        ⟨BoundaryConditionType.Periodic, 0⟩
        ⟨BoundaryConditionType.Dirichlet, 0⟩).down.type = BoundaryConditionType.Periodic := by
  decide

/-- C3 amended: the `BoundaryCondition1D` and `BoundaryCondition2D`
constructors perform no periodic-pairing validation: every combination of
sides, consistently paired or asymmetric, is accepted and stored verbatim at
construction time (so consistent pairings are accepted, but asymmetric ones
are too; nothing is rejected before step time). -/
theorem boundary_construction_stores_arguments
    (l r d u : BoundaryCondition) :
    (BoundaryCondition1D.mk l r).left = l ∧
    (BoundaryCondition1D.mk l r).right = r ∧
    (BoundaryCondition2D.mk (BoundaryCondition1D.mk l r) d u).left = l ∧
    (BoundaryCondition2D.mk (BoundaryCondition1D.mk l r) d u).right = r ∧
    (BoundaryCondition2D.mk (BoundaryCondition1D.mk l r) d u).down = d ∧
    (BoundaryCondition2D.mk (BoundaryCondition1D.mk l r) d u).up = u :=
  ⟨rfl, rfl, rfl, rfl, rfl, rfl⟩

/-- C4 counterexample: the sentinel `__BEGIN__` is not disjoint from the
twelve valid solver values — it has value 1, the very value of
`ExplicitEuler`, and is itself a member of the valid-solver list.  Hence no
dispatch can both reject `__BEGIN__` and dispatch all twelve valid values. -/
theorem sentinel_begin_not_disjoint_cex :
    SolverType.__BEGIN__ = SolverType.ExplicitEuler ∧
    SolverType.__BEGIN__ ∈ validSolvers := by
  decide

/-- C4 amended: dispatch fails with `UnsupportedSolver` exactly for values
outside the half-open valid range `[1, 13)` — so for `Null` (0), for
`__END__` (13), and for every other out-of-range value — while each of the
twelve valid solver values is dispatched; `__BEGIN__` equals `ExplicitEuler`
(both have value 1) and is therefore dispatched, and `__END__` is disjoint
from the twelve valid values. -/
theorem advanceDispatch_unsupported_exactly_out_of_range :
    advanceDispatch SolverType.Null = Except.error AdvanceError.UnsupportedSolver ∧
    advanceDispatch SolverType.__END__ = Except.error AdvanceError.UnsupportedSolver ∧
    (∀ s ∈ validSolvers, advanceDispatch s = Except.ok s) ∧
    advanceDispatch SolverType.__BEGIN__ = Except.ok SolverType.ExplicitEuler ∧
    SolverType.__END__ ∉ validSolvers ∧
    (∀ s : SolverType, s.val < 1 ∨ 13 ≤ s.val →
      advanceDispatch s = Except.error AdvanceError.UnsupportedSolver) := by
  refine ⟨rfl, rfl, ?_, rfl, by decide, ?_⟩
  · intro s hs
    fin_cases hs <;> rfl
  · intro s hs
    have h : ¬(1 ≤ s.val ∧ s.val < 13) := by omega
    simp [advanceDispatch, h]

/-- Witness for C4's amended theorem: instantiated at the concrete solvers
`RungeKutta4` (dispatched) and value 14 (rejected). -/
theorem advanceDispatch_unsupported_exactly_out_of_range_witness :
    advanceDispatch SolverType.RungeKutta4 = Except.ok SolverType.RungeKutta4 ∧
    advanceDispatch ⟨14⟩ = Except.error AdvanceError.UnsupportedSolver :=
  ⟨advanceDispatch_unsupported_exactly_out_of_range.2.2.1 SolverType.RungeKutta4 (by decide),
   advanceDispatch_unsupported_exactly_out_of_range.2.2.2.2.2 ⟨14⟩ (by decide)⟩

/-- C5: the default-constructed `BoundaryCondition` has type `Neumann` and
value 0 (zero-flux). -/
theorem boundaryCondition_default_neumann_zero :
    BoundaryCondition.mkDefault.type = BoundaryConditionType.Neumann ∧
    BoundaryCondition.mkDefault.value = 0 :=
  ⟨rfl, rfl⟩

/-- C7 counterexample: `FiniteDifferenceInput1D` objects are not immutable
after construction: the (defaulted, memberwise) copy-assignment operator
declared in the source replaces every field, so assigning another input to a
constructed object changes its `dt` (here from 1 to 2). -/
theorem input1D_assignment_mutates_cex :
    ((FiniteDifferenceInput1D.mk 1 [] [] [] SolverType.ExplicitEuler
        SpaceDiscretizerType.Centered BoundaryCondition1D.mkDefault).assign
      (FiniteDifferenceInput1D.mk 2 [] [] [] SolverType.ExplicitEuler
        SpaceDiscretizerType.Centered BoundaryCondition1D.mkDefault)).dt ≠
    (FiniteDifferenceInput1D.mk 1 [] [] [] SolverType.ExplicitEuler
        SpaceDiscretizerType.Centered BoundaryCondition1D.mkDefault).dt := by
  decide

/-- C7 amended: the input bundles are plain value aggregates with public
fields and defaulted assignment operators; the code enforces no immutability
or read-only access — the defaulted copy assignment replaces every field of
the assigned-to object with the right-hand side's state, in 1D and 2D alike.
Read-only use is a convention of the callers, not a property of the types. -/
theorem input_assignment_replaces_every_field
    (a b : FiniteDifferenceInput1D) (c d : FiniteDifferenceInput2D) :
    a.assign b = b ∧ c.assign d = d :=
  ⟨rfl, rfl⟩

/-- C8 (supporting evaluation): the enumeration's twelve valid members carry
the consecutive values 1 through 12 and include `AdamsBashforth2` (11); the
twelfth member — the Adams-Moulton 2-step family the claim calls
`AdamsMoulton2` — is spelled `AdamsMouldon2` in the source and has value 12. -/
theorem solverType_twelve_members :
    validSolvers.map SolverType.val = [1, 2, 3, 4, 5, 6, 7, 8, 9, 10, 11, 12] ∧
    validSolvers.length = 12 ∧
    SolverType.AdamsBashforth2 ∈ validSolvers ∧
    SolverType.AdamsMouldon2 ∈ validSolvers ∧
    SolverType.AdamsMouldon2.val = 12 := by
  decide

/-- C9: `getNumberOfSteps` is total over every representable `SolverType`
value: for every value other than the two with numeric values 11 and 12
(`AdamsBashforth2` and `AdamsMouldon2`) it returns 1 through the `default`
branch — in particular for `Null` and the sentinels `__BEGIN__` and
`__END__`, so querying the step-order of `Null` does not fail but yields 1. -/
theorem getNumberOfSteps_total_default_one :
    (∀ s : SolverType, s ≠ SolverType.AdamsBashforth2 →
      s ≠ SolverType.AdamsMouldon2 → getNumberOfSteps s = 1) ∧
    getNumberOfSteps SolverType.Null = 1 ∧
    getNumberOfSteps SolverType.__BEGIN__ = 1 ∧
    getNumberOfSteps SolverType.__END__ = 1 := by
  refine ⟨?_, by decide, by decide, by decide⟩
  intro s h1 h2
  simp [getNumberOfSteps, h1, h2]

/-- Witness for C9: instantiated at the concrete out-of-range value 42. -/
theorem getNumberOfSteps_total_default_one_witness :
    getNumberOfSteps ⟨42⟩ = 1 :=
  getNumberOfSteps_total_default_one.1 ⟨42⟩ (by decide) (by decide)

/-- C10: the twelve valid solver members have the consecutive numeric values
1 through 12, `__BEGIN__` equals 1 (the same value as `ExplicitEuler`, so the
two constants are equal), `__END__` equals 13, and the half-open integer range
`[__BEGIN__, __END__)` contains exactly the valid solver values. -/
theorem solverType_values_consecutive :
    validSolvers.map SolverType.val = [1, 2, 3, 4, 5, 6, 7, 8, 9, 10, 11, 12] ∧
    SolverType.__BEGIN__.val = 1 ∧
    SolverType.__BEGIN__ = SolverType.ExplicitEuler ∧
    SolverType.__END__.val = 13 ∧
    ∀ v : Int, (SolverType.__BEGIN__.val ≤ v ∧ v < SolverType.__END__.val) ↔
      v ∈ validSolvers.map SolverType.val := by
  refine ⟨by decide, by decide, by decide, by decide, ?_⟩
  intro v
  have h : validSolvers.map SolverType.val = [1, 2, 3, 4, 5, 6, 7, 8, 9, 10, 11, 12] := by
    decide
  rw [h]
  simp only [List.mem_cons, List.not_mem_nil, or_false,
    SolverType.__BEGIN__, SolverType.__END__]
  omega
